import Mathlib

/-
  Verification development for the GPS L1 C/A DLL+PLL tracking block
  (src/algorithms/tracking/gnuradio_blocks/gps_l1_ca_dll_pll_tracking_cc.cc).

  Numerical C++ code working on `double` is embedded over the rationals ℚ
  (exact arithmetic standing for the real-number semantics of the source
  expressions).  Machine integers fit comfortably in their ranges for the
  quantities involved, so they are embedded as ℤ / ℕ.  The C library
  functions fmod / round and the C cast-to-integer (truncation toward zero)
  are given explicit executable definitions below.
-/

set_option autoImplicit false

namespace GpsL1CaTracking

/-- C truncation toward zero of a rational, as used by casts such as
`(int64_t)(x)`: floor for nonnegative arguments, ceiling for negative ones. -/
def rtrunc (q : ℚ) : ℤ := if 0 ≤ q then ⌊q⌋ else ⌈q⌉

/-- C `fmod x y`: the remainder `x - y * trunc (x / y)`, which carries the
sign of the dividend `x`. -/
def fmodQ (x y : ℚ) : ℚ := x - y * (rtrunc (x / y) : ℚ)

/-- C `round x`: rounding to the nearest integer, halfway cases away from
zero. -/
def roundQ (x : ℚ) : ℤ := if 0 ≤ x then ⌊x + 1/2⌋ else -⌊-x + 1/2⌋

theorem fmodQ_nonneg {x y : ℚ} (hy : 0 < y) (hx : 0 ≤ x) : 0 ≤ fmodQ x y := by
  have hq : (0 : ℚ) ≤ x / y := div_nonneg hx hy.le
  have hfl : ((⌊x / y⌋ : ℤ) : ℚ) ≤ x / y := Int.floor_le _
  have h1 : ((⌊x / y⌋ : ℤ) : ℚ) * y ≤ x := (le_div_iff₀ hy).mp hfl
  unfold fmodQ rtrunc
  rw [if_pos hq]
  linarith

theorem fmodQ_lt_of_nonneg {x y : ℚ} (hy : 0 < y) (hx : 0 ≤ x) : fmodQ x y < y := by
  have hq : (0 : ℚ) ≤ x / y := div_nonneg hx hy.le
  have hfl : x / y < (⌊x / y⌋ : ℚ) + 1 := Int.lt_floor_add_one _
  have h1 : x < ((⌊x / y⌋ : ℚ) + 1) * y := (div_lt_iff₀ hy).mp hfl
  unfold fmodQ rtrunc
  rw [if_pos hq]
  linarith

theorem fmodQ_nonpos {x y : ℚ} (hy : 0 < y) (hx : x < 0) : fmodQ x y ≤ 0 := by
  have hq : x / y < 0 := div_neg_of_neg_of_pos hx hy
  have hcl : x / y ≤ ((⌈x / y⌉ : ℤ) : ℚ) := Int.le_ceil _
  have h1 : x ≤ ((⌈x / y⌉ : ℤ) : ℚ) * y := (div_le_iff₀ hy).mp hcl
  unfold fmodQ rtrunc
  rw [if_neg (not_le.mpr hq)]
  linarith

theorem neg_lt_fmodQ_of_neg {x y : ℚ} (hy : 0 < y) (hx : x < 0) : -y < fmodQ x y := by
  have hq : x / y < 0 := div_neg_of_neg_of_pos hx hy
  have hcl : ((⌈x / y⌉ : ℤ) : ℚ) < x / y + 1 := Int.ceil_lt_add_one _
  have h1 : ((⌈x / y⌉ : ℚ)) * y < (x / y + 1) * y := by
    exact mul_lt_mul_of_pos_right hcl hy
  have h2 : (x / y) * y = x := div_mul_cancel₀ x hy.ne'
  unfold fmodQ rtrunc
  rw [if_neg (not_le.mpr hq)]
  nlinarith

theorem fmodQ_lt {x y : ℚ} (hy : 0 < y) : fmodQ x y < y := by
  rcases le_or_lt 0 x with hx | hx
  · exact fmodQ_lt_of_nonneg hy hx
  · exact lt_of_le_of_lt (fmodQ_nonpos hy hx) hy

theorem neg_lt_fmodQ {x y : ℚ} (hy : 0 < y) : -y < fmodQ x y := by
  rcases le_or_lt 0 x with hx | hx
  · exact lt_of_lt_of_le (by linarith) (fmodQ_nonneg hy hx)
  · exact neg_lt_fmodQ_of_neg hy hx

theorem abs_roundQ_sub_le (x : ℚ) : |(roundQ x : ℚ) - x| ≤ 1/2 := by
  rw [abs_le]
  unfold roundQ
  rcases le_or_lt 0 x with hx | hx
  · rw [if_pos hx]
    have h1 : ((⌊x + 1/2⌋ : ℤ) : ℚ) ≤ x + 1/2 := Int.floor_le _
    have h2 : x + 1/2 < (⌊x + 1/2⌋ : ℚ) + 1 := Int.lt_floor_add_one _
    constructor <;> linarith
  · rw [if_neg (not_le.mpr hx)]
    have h1 : ((⌊-x + 1/2⌋ : ℤ) : ℚ) ≤ -x + 1/2 := Int.floor_le _
    have h2 : -x + 1/2 < (⌊-x + 1/2⌋ : ℚ) + 1 := Int.lt_floor_add_one _
    push_cast
    constructor <;> linarith

theorem roundQ_nonneg {x : ℚ} (hx : 0 ≤ x) : 0 ≤ roundQ x := by
  unfold roundQ
  rw [if_pos hx]
  exact Int.floor_nonneg.mpr (by linarith)

/-!
Physical constants.  The numeric values of `GPS_L1_CA_CODE_LENGTH_CHIPS`,
`GPS_L1_CA_CODE_RATE_HZ`, `GPS_L1_FREQ_HZ`, `GPS_L1_CA_CODE_PERIOD` and
`GPS_TWO_PI` live in `GPS_L1_CA.h`, which is not among the provided sources;
they are modelled from the spec (1023-chip C/A code at 1.023 Mchip/s on the
1575.42 MHz carrier, one code period = 1 ms, and 2π as a double constant).
-/

/-- Modelled from the spec: `GPS_L1_CA_CODE_LENGTH_CHIPS` (1023 chips). -/
def CODE_LENGTH_CHIPS : ℚ := 1023

/-- Modelled from the spec: `GPS_L1_CA_CODE_RATE_HZ` (1.023 Mchip/s). -/
def CODE_RATE_HZ : ℚ := 1023000

/-- Modelled from the spec: `GPS_L1_FREQ_HZ` (1575.42 MHz). -/
def L1_FREQ_HZ : ℚ := 1575420000

/-- Modelled from the spec: `GPS_L1_CA_CODE_PERIOD` (1023 chips / 1.023 Mchip/s
= 1 ms, exactly). -/
def CODE_PERIOD : ℚ := 1/1000

/-- Modelled from the spec: `GPS_TWO_PI`, the double-precision constant for 2π
(the exact rational value of the decimal literal used here stands for the
double; only its sign and rough size matter for the claims). -/
def TWO_PI : ℚ := 6.283185307179586

/-- Preprocessor constant `CN0_ESTIMATION_SAMPLES` (line 58 of the source). -/
def CN0_ESTIMATION_SAMPLES : ℕ := 20

/-- Preprocessor constant `MINIMUM_VALID_CN0` (line 59). -/
def MINIMUM_VALID_CN0 : ℚ := 25

/-- Preprocessor constant `MAXIMUM_LOCK_FAIL_COUNTER` (line 60). -/
def MAXIMUM_LOCK_FAIL_COUNTER : ℤ := 50

/-- Preprocessor constant `CARRIER_LOCK_THRESHOLD` (line 61). -/
def CARRIER_LOCK_THRESHOLD : ℚ := 85/100

theorem TWO_PI_pos : 0 < TWO_PI := by norm_num [TWO_PI]

/-!
Replica generator (`update_local_code`, source lines 279-311).

The C/A code table `d_ca_code` is an array of `GPS_L1_CA_CODE_LENGTH_CHIPS + 2`
chips: `start_tracking` (lines 246-249) fills positions `1..L` with the code
and then sets `d_ca_code[0] = d_ca_code[L]` and `d_ca_code[L+1] = d_ca_code[1]`.
Chip values are ±1 complex numbers in the source; the table is embedded with
`ℤ` entries since only indexing behaviour is at stake.  An array access is
embedded as an `Option` lookup so that an index outside the array is
observable as `none`.
-/

/-- Wrap-guarded code table built from a base code `c` (source lines 247-249):
position 0 holds the last chip, positions `1..L` the code, position `L+1` the
first chip. -/
def caTable (c : List ℤ) : List ℤ :=
  c.getD (c.length - 1) 0 :: (c ++ [c.getD 0 0])

/-- Array access at a (possibly negative) C integer index, as an `Option`. -/
def tableLookup (t : List ℤ) (i : ℤ) : Option ℤ :=
  if 0 ≤ i then t.get? i.toNat else none

/-- Modelled from the spec: `double_to_fxpt64` (from `fxpt64.h`, not among the
provided sources) converts a double to 64-bit fixed point with 32 integer and
32 fractional bits; the C cast truncates toward zero. -/
def double_to_fxpt64 (x : ℚ) : ℤ := rtrunc (x * 2^32)

/-- One replica sample (body of the loop at source lines 301-310):
`d_ca_code[1 + (code_phase_fxp >> 32)]`.  The arithmetic right shift of the
64-bit fixed-point phase is floor division by `2^32`. -/
def replicaSample (t : List ℤ) (fxp : ℤ) : Option ℤ :=
  tableLookup t (1 + fxp / 2^32)

/-- The resampling loop of `update_local_code` for one of the E/P/L channels:
emit a sample at the current fixed-point phase, then advance the phase by the
fixed-point step. -/
def replicaSeq (t : List ℤ) (fxp step : ℤ) : ℕ → List (Option ℤ)
  | 0 => []
  | n + 1 => replicaSample t fxp :: replicaSeq t (fxp + step) step n

/-- Early/Prompt/Late replica vectors produced by one call. -/
structure ReplicaResult where
  early : List (Option ℤ)
  prompt : List (Option ℤ)
  late : List (Option ℤ)
deriving DecidableEq

/-- `Gps_L1_Ca_Dll_Pll_Tracking_cc::update_local_code` (source lines 279-311):
compute the starting chip phases from the code-phase remainder and the
early-late spacing, convert them and the per-sample step to 32.32 fixed point,
and resample the wrap-guarded table for `n = d_current_prn_length_samples`
samples per channel. -/
def updateLocalCode (t : List ℤ) (code_freq_chips fs_in rem_code_phase_samples
    early_late_spc_chips : ℚ) (n : ℕ) : ReplicaResult :=
  let code_phase_step_chips : ℚ := code_freq_chips / fs_in
  let rem_code_phase_chips : ℚ := rem_code_phase_samples * (code_freq_chips / fs_in)
  let tcode_chips : ℚ := -rem_code_phase_chips
  let step_fxp : ℤ := double_to_fxpt64 code_phase_step_chips
  { early := replicaSeq t (double_to_fxpt64 (tcode_chips + early_late_spc_chips)) step_fxp n
    prompt := replicaSeq t (double_to_fxpt64 tcode_chips) step_fxp n
    late := replicaSeq t (double_to_fxpt64 (tcode_chips - early_late_spc_chips)) step_fxp n }

theorem replicaSeq_get? (t : List ℤ) (step : ℤ) :
    ∀ (n i : ℕ) (fxp : ℤ), i < n →
      (replicaSeq t fxp step n).get? i = some (replicaSample t (fxp + (i : ℤ) * step))
  | 0, i, fxp, hi => absurd hi (Nat.not_lt_zero i)
  | n + 1, 0, fxp, _ => by simp [replicaSeq]
  | n + 1, i + 1, fxp, hi => by
      have ih := replicaSeq_get? t step n i (fxp + step) (Nat.lt_of_succ_lt_succ hi)
      simp only [replicaSeq, List.get?_cons_succ, ih]
      congr 2
      push_cast
      ring

/-- Lookup in the wrap-guarded table at `1 + idx` agrees with the mod-reduced
base-code entry whenever `-1 ≤ idx ≤ L` (the range the wrap guards cover). -/
theorem caTable_lookup (c : List ℤ) (hc : c ≠ []) (idx : ℤ)
    (h1 : -1 ≤ idx) (h2 : idx ≤ (c.length : ℤ)) :
    tableLookup (caTable c) (1 + idx) = c.get? ((idx % (c.length : ℤ)).toNat) := by
  have hL : 0 < c.length := List.length_pos.mpr hc
  rcases lt_trichotomy idx 0 with hneg | hzero | hpos
  · -- idx = -1 : the guard entry at table position 0 replicates the last chip
    have hidx : idx = -1 := by omega
    subst hidx
    have hm : (-1 : ℤ) % (c.length : ℤ) = (c.length : ℤ) - 1 := by
      rw [show (-1 : ℤ) = ((c.length : ℤ) - 1) + (c.length : ℤ) * (-1) by ring,
        Int.add_mul_emod_self_left, Int.emod_eq_of_lt (by omega) (by omega)]
    have hmod : (((-1 : ℤ) % (c.length : ℤ)).toNat) = c.length - 1 := by
      rw [hm]; omega
    rw [hmod]
    show tableLookup (caTable c) 0 = c.get? (c.length - 1)
    have hlt : c.length - 1 < c.length := by omega
    rw [tableLookup, if_pos (le_refl (0 : ℤ))]
    show (caTable c).get? 0 = c.get? (c.length - 1)
    rw [caTable, List.get?_cons_zero, List.getD_eq_get?, List.get?_eq_get hlt]
    rfl
  · -- idx = 0 is handled together with the positive in-range indices below
    subst hzero
    rw [tableLookup, if_pos (by omega : (0:ℤ) ≤ 1 + 0)]
    have : ((1 : ℤ) + 0).toNat = 1 := by omega
    rw [this]
    rw [caTable, List.get?_cons_succ]
    have hmod : ((0 : ℤ) % (c.length : ℤ)).toNat = 0 := by
      rw [Int.zero_emod]; rfl
    rw [hmod, List.get?_append (by omega : 0 < c.length)]
  · rcases lt_or_eq_of_le h2 with hlt | heq
    · -- 0 < idx < L : interior of the table
      rw [tableLookup, if_pos (by omega : (0:ℤ) ≤ 1 + idx)]
      have h3 : (1 + idx).toNat = idx.toNat + 1 := by omega
      rw [h3, caTable, List.get?_cons_succ]
      have hmod : (idx % (c.length : ℤ)).toNat = idx.toNat := by
        rw [Int.emod_eq_of_lt (by omega) hlt]
      rw [hmod, List.get?_append (by omega : idx.toNat < c.length)]
    · -- idx = L : the guard entry at table position L+1 replicates the first chip
      rw [tableLookup, if_pos (by omega : (0:ℤ) ≤ 1 + idx)]
      have h3 : (1 + idx).toNat = c.length + 1 := by omega
      rw [h3, caTable, List.get?_cons_succ, List.get?_concat_length]
      have hmod : (idx % (c.length : ℤ)).toNat = 0 := by
        rw [heq, Int.emod_self]; rfl
      rw [hmod, List.getD_eq_get?, List.get?_eq_get hL]
      rfl



/-!
Data model of the tracking driver (`Gps_L1_Ca_Dll_Pll_Tracking_cc`).

The member variables mutated by `general_work` are collected into
`TrackingState`; the construction-time parameters into `TrackingConfig`.
The collaborating components whose code is not among the provided sources
(the correlator, the two loop filters, `cn0_svn_estimator`,
`carrier_lock_detector`, and the incoming `Gnss_Synchro` acquisition record)
are modelled from the spec as opaque per-block input values, gathered in
`WorkInputs`: `general_work` itself only moves their outputs around, so the
claims below are about exactly what the driver does with them.
-/

/-- Construction-time configuration (constructor arguments, lines 95-104). -/
structure TrackingConfig where
  if_freq : ℚ
  fs_in : ℚ
  vector_length : ℕ
  pll_bw_hz : ℚ
  dll_bw_hz : ℚ
  early_late_spc_chips : ℚ
  queue_present : Bool
deriving DecidableEq

/-- Driver-owned mutable state (the `d_` members touched by `general_work`). -/
structure TrackingState where
  enable_tracking : Bool
  pull_in : Bool
  sample_counter : ℤ
  acq_sample_stamp : ℤ
  acq_code_phase_samples : ℚ
  acq_carrier_doppler_hz : ℚ
  carrier_doppler_hz : ℚ
  code_freq_chips : ℚ
  code_phase_chips : ℚ
  carrier_phase_rad : ℚ
  rem_code_phase_samples : ℚ
  rem_carr_phase_rad : ℚ
  acc_carrier_phase_rad : ℚ
  acc_code_phase_secs : ℚ
  current_prn_length_samples : ℤ
  cn0_estimation_counter : ℕ
  prompt_buffer : List (ℚ × ℚ)
  cn0_snv_db_hz : ℚ
  carrier_lock_test : ℚ
  carrier_lock_fail_counter : ℤ
  carrier_aiding_enabled : Bool
deriving DecidableEq

/-- The fields of the outgoing `Gnss_Synchro` record that `general_work`
writes (the remaining fields ride along unchanged from `acq_base`). -/
structure SynchroOut where
  system : Char
  prompt_I : ℚ
  prompt_Q : ℚ
  tracking_timestamp_secs : ℚ
  code_phase_secs : ℚ
  carrier_phase_rads : ℚ
  carrier_doppler_hz : ℚ
  cn0_db_hz : ℚ
  flag_valid_tracking : Bool
  flag_valid_pseudorange : Bool
deriving DecidableEq

/-- Per-invocation inputs to `general_work` that come from collaborators whose
code is not among the provided sources.  `prompt_is_nan` models the
`std::isnan` test on the Prompt correlator output (NaN has no rational
counterpart); `carr_error_filt_hz` and `code_error_filt_chips` are the loop
filter outputs; `cn0_estimate` and `lock_estimate` the estimator outputs;
`acq_base` the `*d_acquisition_gnss_synchro` record that output records are
copied from; `ninput` is `ninput_items[0]`. -/
structure WorkInputs where
  ninput : ℤ
  prompt_is_nan : Bool
  prompt : ℚ × ℚ
  carr_error_filt_hz : ℚ
  code_error_filt_chips : ℚ
  cn0_estimate : ℚ
  lock_estimate : ℚ
  acq_base : SynchroOut
deriving DecidableEq


/-- Result of one `general_work` invocation: the new state, the count passed
to `consume_each`, the number of output records (the function always
`return 1`), and the emitted record. -/
structure WorkResult where
  state : TrackingState
  consumed : ℤ
  produced : ℤ
  output : SynchroOut
deriving DecidableEq

/-- Modelled from the spec: a default-constructed `Gnss_Synchro` (its
definition is not among the provided sources) is zero-valued; the disabled
branch then sets `System = 'G'` and `Flag_valid_pseudorange = false`
(lines 635-636). -/
def zeroSynchro : SynchroOut :=
  { system := 'G', prompt_I := 0, prompt_Q := 0, tracking_timestamp_secs := 0,
    code_phase_secs := 0, carrier_phase_rads := 0, carrier_doppler_hz := 0,
    cn0_db_hz := 0, flag_valid_tracking := false, flag_valid_pseudorange := false }

/-- Result of the C/N0-estimation / lock-detection section. -/
structure Cn0LockResult where
  counter : ℕ
  buffer : List (ℚ × ℚ)
  cn0 : ℚ
  lock_test : ℚ
  fail_counter : ℤ
  loss_of_lock : Bool
  disable : Bool
  estimated : Bool
deriving DecidableEq

/-- CN0 estimation and lock detection (source lines 526-561).  While the
counter is below `CN0_ESTIMATION_SAMPLES` the Prompt value is appended to the
buffer; otherwise the counter resets, the estimators run (their outputs are
the opaque `cn0_est` / `lock_est` inputs), the hysteretic fail counter is
updated, and on overflow a loss-of-lock message is sent (if the queue is
present), the counter is cleared and tracking is disabled.  `estimated`
records whether the estimation branch ran. -/
def cn0LockStep (queue_present : Bool) (prompt : ℚ × ℚ) (cn0_est lock_est : ℚ)
    (cnt : ℕ) (buf : List (ℚ × ℚ)) (old_cn0 old_lock : ℚ) (fail : ℤ) :
    Cn0LockResult :=
  if cnt < CN0_ESTIMATION_SAMPLES then
    { counter := cnt + 1, buffer := buf.set cnt prompt, cn0 := old_cn0,
      lock_test := old_lock, fail_counter := fail, loss_of_lock := false,
      disable := false, estimated := false }
  else
    let fail1 : ℤ :=
      if lock_est < CARRIER_LOCK_THRESHOLD ∨ cn0_est < MINIMUM_VALID_CN0 then
        fail + 1
      else if 0 < fail then fail - 1 else fail
    if MAXIMUM_LOCK_FAIL_COUNTER < fail1 then
      { counter := 0, buffer := buf, cn0 := cn0_est, lock_test := lock_est,
        fail_counter := 0, loss_of_lock := queue_present, disable := true,
        estimated := true }
    else
      { counter := 0, buffer := buf, cn0 := cn0_est, lock_test := lock_est,
        fail_counter := fail1, loss_of_lock := false, disable := false,
        estimated := true }

/-- Code- and carrier-phase bookkeeping at the top of the tracking branch
(source lines 436-448): accumulate the absolute code phase, reduce it modulo
the code length, fold the distance to the next code-period boundary into
`(-L/2, L/2]` chips, and scale it to samples at the nominal code rate.  The
source multiplies the carrier phase by `2.0*M_PI`, embedded with the same 2π
constant. -/
def phaseBookkeeping (cfg : TrackingConfig) (s : TrackingState) : TrackingState :=
  let T : ℚ := (s.current_prn_length_samples : ℚ) / cfg.fs_in
  let cp : ℚ := fmodQ (s.code_phase_chips + T * s.code_freq_chips) CODE_LENGTH_CHIPS
  let cr : ℚ := s.carrier_phase_rad + T * TWO_PI * s.carrier_doppler_hz
  let r0 : ℚ := CODE_LENGTH_CHIPS - cp
  let rc : ℚ := if CODE_LENGTH_CHIPS / 2 < r0 then r0 - CODE_LENGTH_CHIPS else r0
  { s with code_phase_chips := cp, carrier_phase_rad := cr,
           rem_code_phase_samples := rc * cfg.fs_in / CODE_RATE_HZ }

/-- Disabled (`d_enable_tracking == false`) branch of `general_work` (source
lines 612-640 plus the shared tail at 699-706): emit a zero-valued record and
advance the sample counter by the current block length; the transient
correlator registers are cleared but no loop state changes.  (The debug
second-counter `d_last_seg` and the optional dump-file write are pure logging
and are not part of the state model.) -/
def idleStep (s : TrackingState) : WorkResult :=
  { state := { s with sample_counter := s.sample_counter + s.current_prn_length_samples },
    consumed := s.current_prn_length_samples, produced := 1, output := zeroSynchro }

/-- Pull-in branch (source lines 375-398): align the input stream to the
acquisition code phase, consume the alignment offset without correlating,
clear the code-phase state, and pass the acquisition record through.  The
source computes `fmod` on `float` casts; embedded exactly. -/
def pullInStep (w : WorkInputs) (s : TrackingState) : WorkResult :=
  let acq_to_trk_delay_samples : ℤ := s.sample_counter - s.acq_sample_stamp
  let acq_trk_shif_correction_samples : ℚ :=
    (s.current_prn_length_samples : ℚ) -
      fmodQ (acq_to_trk_delay_samples : ℚ) (s.current_prn_length_samples : ℚ)
  let samples_offset : ℤ := roundQ (s.acq_code_phase_samples + acq_trk_shif_correction_samples)
  { state :=
      { s with
        sample_counter := s.sample_counter + samples_offset,
        pull_in := false, code_phase_chips := 0, rem_code_phase_samples := 0 },
    consumed := samples_offset, produced := 1, output := w.acq_base }

/-- NaN branch (source lines 451-470), entered after the phase bookkeeping
when the Prompt correlator output contains NaN: consume every available input
sample, advance the sample counter by that amount, and emit an invalidated
record; no filter, Doppler, lock or length state is touched. -/
def nanStep (cfg : TrackingConfig) (w : WorkInputs) (s : TrackingState) : WorkResult :=
  { state := { s with sample_counter := s.sample_counter + w.ninput },
    consumed := w.ninput, produced := 1,
    output :=
      { w.acq_base with
        prompt_I := 0, prompt_Q := 0,
        tracking_timestamp_secs := ((s.sample_counter + w.ninput : ℤ) : ℚ) / cfg.fs_in,
        carrier_phase_rads := 0, code_phase_secs := 0, cn0_db_hz := 0,
        flag_valid_tracking := false, flag_valid_pseudorange := false } }

/-- Normal tracking tail (source lines 472-611 plus the shared tail at
699-706), applied to the state already updated by `phaseBookkeeping`:
advance the sample counter by the block length, run PLL and DLL updates (the
filter outputs are the opaque inputs), update the phase accumulators and the
carrier-phase remainder, choose the next block length, run the C/N0 and lock
detection section, and emit the tracking record. -/
def normalStep (cfg : TrackingConfig) (w : WorkInputs) (s : TrackingState) : WorkResult :=
  let sc : ℤ := s.sample_counter + s.current_prn_length_samples
  let doppler : ℚ := w.carr_error_filt_hz
  let code_freq1 : ℚ :=
    if s.carrier_aiding_enabled then
      CODE_RATE_HZ + doppler * CODE_RATE_HZ / L1_FREQ_HZ
    else CODE_RATE_HZ
  let acc_carr : ℚ := s.acc_carrier_phase_rad - TWO_PI * doppler * CODE_PERIOD
  let rem_carr : ℚ :=
    fmodQ (s.rem_carr_phase_rad + TWO_PI * (cfg.if_freq + doppler) * CODE_PERIOD) TWO_PI
  let code_freq2 : ℚ := code_freq1 + w.code_error_filt_chips
  let acc_code : ℚ := s.acc_code_phase_secs + CODE_PERIOD * w.code_error_filt_chips / CODE_RATE_HZ
  let next_len : ℤ :=
    roundQ (1 / code_freq2 * CODE_LENGTH_CHIPS * cfg.fs_in + s.rem_code_phase_samples)
  let r := cn0LockStep cfg.queue_present w.prompt w.cn0_estimate w.lock_estimate
    s.cn0_estimation_counter s.prompt_buffer s.cn0_snv_db_hz s.carrier_lock_test
    s.carrier_lock_fail_counter
  { state :=
      { s with
        sample_counter := sc, carrier_doppler_hz := doppler,
        code_freq_chips := code_freq2, acc_carrier_phase_rad := acc_carr,
        rem_carr_phase_rad := rem_carr, acc_code_phase_secs := acc_code,
        cn0_estimation_counter := r.counter, prompt_buffer := r.buffer,
        cn0_snv_db_hz := r.cn0, carrier_lock_test := r.lock_test,
        carrier_lock_fail_counter := r.fail_counter,
        enable_tracking := if r.disable then false else s.enable_tracking,
        current_prn_length_samples := next_len },
    consumed := s.current_prn_length_samples, produced := 1,
    output :=
      { w.acq_base with
        prompt_I := w.prompt.1, prompt_Q := w.prompt.2,
        tracking_timestamp_secs := ((sc : ℚ) + s.rem_code_phase_samples) / cfg.fs_in,
        code_phase_secs := 0, carrier_phase_rads := acc_carr,
        carrier_doppler_hz := doppler, cn0_db_hz := r.cn0,
        flag_valid_pseudorange := false } }

/-- Enabled, non-pull-in branch: phase bookkeeping, then either the NaN exit
or the normal tracking tail. -/
def trackingStep (cfg : TrackingConfig) (w : WorkInputs) (s : TrackingState) : WorkResult :=
  if w.prompt_is_nan then nanStep cfg w (phaseBookkeeping cfg s)
  else normalStep cfg w (phaseBookkeeping cfg s)

/-- `Gps_L1_Ca_Dll_Pll_Tracking_cc::general_work` (source lines 354-707) as a
function from configuration, per-invocation inputs and state to the new state,
the consumed count and the emitted record. -/
def generalWork (cfg : TrackingConfig) (w : WorkInputs) (s : TrackingState) : WorkResult :=
  if s.enable_tracking then
    if s.pull_in then pullInStep w s else trackingStep cfg w s
  else idleStep s

/-- State established by the constructor (source lines 95-186).  Members the
constructor leaves uninitialized (`d_code_phase_chips`, `d_carrier_phase_rad`,
the contents of the freshly allocated Prompt buffer) are represented as
zero. -/
def initialState (cfg : TrackingConfig) : TrackingState :=
  { enable_tracking := false, pull_in := false, sample_counter := 0,
    acq_sample_stamp := 0, acq_code_phase_samples := 0, acq_carrier_doppler_hz := 0,
    carrier_doppler_hz := 0, code_freq_chips := CODE_RATE_HZ, code_phase_chips := 0,
    carrier_phase_rad := 0, rem_code_phase_samples := 0, rem_carr_phase_rad := 0,
    acc_carrier_phase_rad := 0, acc_code_phase_secs := 0,
    current_prn_length_samples := (cfg.vector_length : ℤ), cn0_estimation_counter := 0,
    prompt_buffer := List.replicate CN0_ESTIMATION_SAMPLES (0, 0), cn0_snv_db_hz := 0,
    carrier_lock_test := 1, carrier_lock_fail_counter := 0,
    carrier_aiding_enabled := true }

/-- The factory / constructor (source lines 66-80 and 95-186) as a fallible
operation: a rejected configuration would be `none`.  The constructor body
consists of assignments and buffer allocations only — it contains no
validation of the bandwidths, the sampling rate or the early-late spacing and
no failure path, so it returns the initial state for every configuration. -/
def mkTrackingCC (cfg : TrackingConfig) : Option TrackingState :=
  some (initialState cfg)

/-- Written from the spec's words, for comparison with the source behaviour
(section 7: "Configuration error (non-positive bandwidths, sampling rate, or
spacing out of (0,1)): reject at construction"). -/
def invalidConfig (cfg : TrackingConfig) : Prop :=
  cfg.pll_bw_hz ≤ 0 ∨ cfg.dll_bw_hz ≤ 0 ∨ cfg.fs_in ≤ 0 ∨
    ¬(0 < cfg.early_late_spc_chips ∧ cfg.early_late_spc_chips < 1)

theorem generalWork_eq_idle (cfg : TrackingConfig) (w : WorkInputs) (s : TrackingState)
    (h : s.enable_tracking = false) : generalWork cfg w s = idleStep s := by
  simp [generalWork, h]

theorem generalWork_eq_pullIn (cfg : TrackingConfig) (w : WorkInputs) (s : TrackingState)
    (h1 : s.enable_tracking = true) (h2 : s.pull_in = true) :
    generalWork cfg w s = pullInStep w s := by
  simp [generalWork, h1, h2]

theorem generalWork_eq_nan (cfg : TrackingConfig) (w : WorkInputs) (s : TrackingState)
    (h1 : s.enable_tracking = true) (h2 : s.pull_in = false)
    (h3 : w.prompt_is_nan = true) :
    generalWork cfg w s = nanStep cfg w (phaseBookkeeping cfg s) := by
  simp [generalWork, trackingStep, h1, h2, h3]

theorem generalWork_eq_normal (cfg : TrackingConfig) (w : WorkInputs) (s : TrackingState)
    (h1 : s.enable_tracking = true) (h2 : s.pull_in = false)
    (h3 : w.prompt_is_nan = false) :
    generalWork cfg w s = normalStep cfg w (phaseBookkeeping cfg s) := by
  simp [generalWork, trackingStep, h1, h2, h3]

/-!
Concrete values used by witnesses and counterexamples: a 4 MHz front end at
zero intermediate frequency tracking the nominal 1.023 Mchip/s code, one code
period = 4000 samples.
-/

/-- Example configuration. -/
def exCfg : TrackingConfig :=
  { if_freq := 0, fs_in := 4000000, vector_length := 4000, pll_bw_hz := 50,
    dll_bw_hz := 2, early_late_spc_chips := 1/2, queue_present := true }

/-- Example mid-track state with the accumulated code phase at 1000 chips. -/
def exState : TrackingState :=
  { enable_tracking := true, pull_in := false, sample_counter := 40000,
    acq_sample_stamp := 0, acq_code_phase_samples := 0, acq_carrier_doppler_hz := 0,
    carrier_doppler_hz := 0, code_freq_chips := 1023000, code_phase_chips := 1000,
    carrier_phase_rad := 0, rem_code_phase_samples := 0, rem_carr_phase_rad := 0,
    acc_carrier_phase_rad := 0, acc_code_phase_secs := 0,
    current_prn_length_samples := 4000, cn0_estimation_counter := 0,
    prompt_buffer := List.replicate CN0_ESTIMATION_SAMPLES (0, 0), cn0_snv_db_hz := 0,
    carrier_lock_test := 1, carrier_lock_fail_counter := 0,
    carrier_aiding_enabled := true }

/-- Example per-invocation inputs (quiet loop: zero filter corrections). -/
def exInputs : WorkInputs :=
  { ninput := 8000, prompt_is_nan := false, prompt := (1, 0),
    carr_error_filt_hz := 0, code_error_filt_chips := 0, cn0_estimate := 40,
    lock_estimate := 1, acq_base := zeroSynchro }

/-- Example base code for concrete evaluations: 1023 alternating ±1 chips. -/
def exCaCode : List ℤ := (List.range 1023).map (fun k => if k % 2 = 0 then 1 else -1)

/-- Example invalid configuration: non-positive PLL bandwidth. -/
def exBadCfg : TrackingConfig := { exCfg with pll_bw_hz := -1 }

/-- `rtrunc` with the ceiling branch expressed through `Int.floor`, for
numeric evaluation. -/
theorem rtrunc_eq (q : ℚ) : rtrunc q = if 0 ≤ q then ⌊q⌋ else -⌊-q⌋ := by
  unfold rtrunc
  split
  · rfl
  · rw [show q = -(-q) by ring, Int.ceil_neg, neg_neg]

set_option maxRecDepth 100000 in
/-- C1, counterexample.  The claim asserts that `update_local_code` reduces
the integer chip index modulo L = 1023 before indexing, for every starting
remainder and step, so the index always stays inside the table.  With
`rem_code_phase_samples = 2` at one chip per sample the prompt starting phase
is -2 chips; the source indexes `d_ca_code[1 + (-2)] = d_ca_code[-1]`,
outside the table (`none`), whereas the mod-reduced table entry
`CodeTable[1 + ((-2) mod 1023)] = CodeTable[1022]` is the chip value -1. -/
theorem C1_counterexample :
    (updateLocalCode (caTable exCaCode) 1 1 2 (1/2) 1).prompt = [none] ∧
    (double_to_fxpt64 (-(2 * ((1 : ℚ) / 1))) / 2 ^ 32) % 1023 = 1021 ∧
    tableLookup (caTable exCaCode) (1 + 1021) = some (-1) := by
  have h0 : double_to_fxpt64 (-(2 * ((1 : ℚ) / 1))) = -8589934592 := by
    norm_num [double_to_fxpt64, rtrunc_eq]
  refine ⟨?_, ?_, ?_⟩
  · rw [show (updateLocalCode (caTable exCaCode) 1 1 2 (1/2) 1).prompt
        = [replicaSample (caTable exCaCode) (double_to_fxpt64 (-(2 * ((1 : ℚ) / 1))))] from rfl,
      h0]
    decide
  · rw [h0]
    decide
  · decide

/-- C1, amended.  Each E/P/L channel of `update_local_code` is `replicaSeq`
run from that channel's fixed-point starting phase.  No modular reduction is
performed by the source; instead, whenever the integer part of the
fixed-point chip phase of a sample lies in `[-1, L]` — the range covered by
the two wrap-guard entries — the emitted replica value equals the mod-L
reduced base-code chip `CodeTable[1 + ((phase_fxp >> 32) mod L)]`.  Outside
that range the access leaves the table (see the counterexample). -/
theorem C1_replica_eq_mod_table (c : List ℤ) (hc : c.length = 1023) (fxp0 step : ℤ)
    (n i : ℕ) (hi : i < n)
    (h1 : -1 ≤ (fxp0 + (i : ℤ) * step) / 2 ^ 32)
    (h2 : (fxp0 + (i : ℤ) * step) / 2 ^ 32 ≤ 1023) :
    (replicaSeq (caTable c) fxp0 step n).get? i
      = some (c.get? ((((fxp0 + (i : ℤ) * step) / 2 ^ 32) % 1023).toNat)) := by
  have hc' : c ≠ [] := by
    intro h
    rw [h] at hc
    simp at hc
  rw [replicaSeq_get? (caTable c) step n i fxp0 hi, replicaSample,
    caTable_lookup c hc' _ h1 (by rw [hc]; exact_mod_cast h2), hc]
  norm_cast

set_option maxRecDepth 100000 in
/-- C1, witness for the amended theorem: sample 1 of a 3-sample prompt
sequence starting at chip phase 2 with a half-chip step lands at chip 2. -/
theorem C1_witness :
    exCaCode.length = 1023 ∧
    (replicaSeq (caTable exCaCode) (2 * 2 ^ 32) (2 ^ 31) 3).get? 1
      = some (exCaCode.get? ((((2 * 2 ^ 32 + (1 : ℤ) * 2 ^ 31) / 2 ^ 32) % 1023).toNat)) :=
  ⟨by decide, C1_replica_eq_mod_table exCaCode (by decide) (2 * 2 ^ 32) (2 ^ 31) 3 1
    (by decide) (by decide) (by decide)⟩

/-- Projection: the updated code frequency of the normal tracking tail
(source lines 483-491 and 505). -/
theorem normalStep_code_freq (cfg : TrackingConfig) (w : WorkInputs) (s : TrackingState) :
    (normalStep cfg w s).state.code_freq_chips
      = (if s.carrier_aiding_enabled then
           CODE_RATE_HZ + w.carr_error_filt_hz * CODE_RATE_HZ / L1_FREQ_HZ
         else CODE_RATE_HZ) + w.code_error_filt_chips := rfl

/-- Projection: the next block length (source lines 517-523) is the rounded
sum of one code period in samples at the updated code frequency and the
code-phase remainder. -/
theorem normalStep_next_len (cfg : TrackingConfig) (w : WorkInputs) (s : TrackingState) :
    (normalStep cfg w s).state.current_prn_length_samples
      = roundQ (1 / (normalStep cfg w s).state.code_freq_chips * CODE_LENGTH_CHIPS * cfg.fs_in
          + s.rem_code_phase_samples) := rfl

/-- Projection: the normal tracking tail leaves the code-phase remainder as
the phase bookkeeping set it. -/
theorem normalStep_rem_code (cfg : TrackingConfig) (w : WorkInputs) (s : TrackingState) :
    (normalStep cfg w s).state.rem_code_phase_samples = s.rem_code_phase_samples := rfl

/-- Projection: the accumulated code phase after reduction modulo the code
length (source lines 438-439). -/
theorem phaseBookkeeping_code_phase (cfg : TrackingConfig) (s : TrackingState) :
    (phaseBookkeeping cfg s).code_phase_chips
      = fmodQ (s.code_phase_chips
          + (s.current_prn_length_samples : ℚ) / cfg.fs_in * s.code_freq_chips)
          CODE_LENGTH_CHIPS := rfl

/-- Projection: the recomputed code-phase remainder in samples (source lines
442-448). -/
theorem phaseBookkeeping_rem_code (cfg : TrackingConfig) (s : TrackingState) :
    (phaseBookkeeping cfg s).rem_code_phase_samples
      = (if CODE_LENGTH_CHIPS / 2 < CODE_LENGTH_CHIPS - (phaseBookkeeping cfg s).code_phase_chips
         then CODE_LENGTH_CHIPS - (phaseBookkeeping cfg s).code_phase_chips - CODE_LENGTH_CHIPS
         else CODE_LENGTH_CHIPS - (phaseBookkeeping cfg s).code_phase_chips)
          * cfg.fs_in / CODE_RATE_HZ := rfl

/-- C2, counterexample.  The claim asserts
`|current_prn_length_samples - fs_in * code_length_chips / code_freq_chips| <= 1`
for the block length chosen for the next invocation.  In the example state the
accumulated code phase stands at 1000 chips, so the recomputed remainder is
about 90 samples and the chosen length is 4090 while one code period is 4000
samples: the distance is 90. -/
theorem C2_counterexample :
    ¬ (|((generalWork exCfg exInputs exState).state.current_prn_length_samples : ℚ)
        - exCfg.fs_in * CODE_LENGTH_CHIPS
          / (generalWork exCfg exInputs exState).state.code_freq_chips| ≤ 1) := by
  rw [generalWork_eq_normal exCfg exInputs exState rfl rfl rfl, normalStep_next_len,
    normalStep_code_freq, phaseBookkeeping_rem_code, phaseBookkeeping_code_phase]
  norm_num [exCfg, exState, exInputs, fmodQ, rtrunc_eq, roundQ, CODE_LENGTH_CHIPS,
    CODE_RATE_HZ, L1_FREQ_HZ]

/-- C2, amended.  On the normal tracking path the chosen next block length is
within half a sample of one code period at the updated code-frequency
estimate plus the carried code-phase remainder (which the counterexample
shows can itself be tens of samples, so the claimed bound of one sample
against the code period alone does not hold). -/
theorem C2_next_length_vs_period (cfg : TrackingConfig) (w : WorkInputs) (s : TrackingState)
    (h1 : s.enable_tracking = true) (h2 : s.pull_in = false)
    (h3 : w.prompt_is_nan = false) :
    |((generalWork cfg w s).state.current_prn_length_samples : ℚ)
      - (cfg.fs_in * CODE_LENGTH_CHIPS / (generalWork cfg w s).state.code_freq_chips
         + (generalWork cfg w s).state.rem_code_phase_samples)| ≤ 1/2 := by
  rw [generalWork_eq_normal cfg w s h1 h2 h3, normalStep_next_len, normalStep_rem_code]
  have h : cfg.fs_in * CODE_LENGTH_CHIPS
        / (normalStep cfg w (phaseBookkeeping cfg s)).state.code_freq_chips
      = 1 / (normalStep cfg w (phaseBookkeeping cfg s)).state.code_freq_chips
          * CODE_LENGTH_CHIPS * cfg.fs_in := by
    rw [div_eq_mul_inv, one_div]
    ring
  rw [h]
  exact abs_roundQ_sub_le _

/-- C2, witness: the amended bound at the example configuration and state. -/
theorem C2_witness :
    exState.enable_tracking = true ∧
    |((generalWork exCfg exInputs exState).state.current_prn_length_samples : ℚ)
      - (exCfg.fs_in * CODE_LENGTH_CHIPS / (generalWork exCfg exInputs exState).state.code_freq_chips
         + (generalWork exCfg exInputs exState).state.rem_code_phase_samples)| ≤ 1/2 :=
  ⟨rfl, C2_next_length_vs_period exCfg exInputs exState rfl rfl rfl⟩

/-- Projection: the carrier-phase remainder update (source lines 496-497). -/
theorem normalStep_rem_carr (cfg : TrackingConfig) (w : WorkInputs) (s : TrackingState) :
    (normalStep cfg w s).state.rem_carr_phase_rad
      = fmodQ (s.rem_carr_phase_rad
          + TWO_PI * (cfg.if_freq + w.carr_error_filt_hz) * CODE_PERIOD) TWO_PI := rfl

/-- Projection: the phase bookkeeping leaves the carrier-phase remainder
unchanged. -/
theorem phaseBookkeeping_rem_carr (cfg : TrackingConfig) (s : TrackingState) :
    (phaseBookkeeping cfg s).rem_carr_phase_rad = s.rem_carr_phase_rad := rfl

/-- C3, counterexample.  The claim asserts `rem_carr_phase_rad` lies in
`[0, 2pi)` after every block for every (possibly negative) Doppler estimate.
With a -1500 Hz filtered Doppler at zero intermediate frequency the per-block
phase increment is -3pi, and C `fmod` keeps the sign of its dividend, so after
the block the remainder is -pi, below 0. -/
theorem C3_counterexample :
    (generalWork exCfg { exInputs with carr_error_filt_hz := -1500 } exState).state.rem_carr_phase_rad
      < 0 := by
  rw [generalWork_eq_normal _ _ _ rfl rfl rfl, normalStep_rem_carr, phaseBookkeeping_rem_carr]
  norm_num [exCfg, exState, exInputs, fmodQ, rtrunc_eq, TWO_PI, CODE_PERIOD]

/-- C3, amended.  After every normal tracking block `rem_carr_phase_rad` lies
in the open interval `(-2pi, 2pi)` (C `fmod` carries the dividend's sign), and
it lies in `[0, 2pi)` whenever the accumulated phase before the reduction  —
the previous remainder plus `2pi (if_freq + carrier_doppler) T` — is
nonnegative. -/
theorem C3_rem_carr_range (cfg : TrackingConfig) (w : WorkInputs) (s : TrackingState)
    (h1 : s.enable_tracking = true) (h2 : s.pull_in = false)
    (h3 : w.prompt_is_nan = false) :
    -TWO_PI < (generalWork cfg w s).state.rem_carr_phase_rad ∧
    (generalWork cfg w s).state.rem_carr_phase_rad < TWO_PI ∧
    (0 ≤ s.rem_carr_phase_rad + TWO_PI * (cfg.if_freq + w.carr_error_filt_hz) * CODE_PERIOD →
      0 ≤ (generalWork cfg w s).state.rem_carr_phase_rad) := by
  rw [generalWork_eq_normal cfg w s h1 h2 h3, normalStep_rem_carr, phaseBookkeeping_rem_carr]
  exact ⟨neg_lt_fmodQ TWO_PI_pos, fmodQ_lt TWO_PI_pos, fun h => fmodQ_nonneg TWO_PI_pos h⟩

/-- C3, witness: the amended bounds at the example configuration and state
(zero Doppler, so the phase before reduction is nonnegative). -/
theorem C3_witness :
    exState.enable_tracking = true ∧
    -TWO_PI < (generalWork exCfg exInputs exState).state.rem_carr_phase_rad ∧
    (generalWork exCfg exInputs exState).state.rem_carr_phase_rad < TWO_PI ∧
    0 ≤ (generalWork exCfg exInputs exState).state.rem_carr_phase_rad :=
  ⟨rfl, (C3_rem_carr_range exCfg exInputs exState rfl rfl rfl).1,
    (C3_rem_carr_range exCfg exInputs exState rfl rfl rfl).2.1,
    (C3_rem_carr_range exCfg exInputs exState rfl rfl rfl).2.2
      (by norm_num [exCfg, exState, exInputs, TWO_PI, CODE_PERIOD])⟩

/-- C4.  On every invocation — disabled, pull-in, NaN fault and normal
tracking — the sample counter advances by exactly the count the invocation
passes to `consume_each`, and (under the standing state invariants: a
positive block length, a nonnegative available-input count and a nonnegative
acquisition code phase) it never decreases. -/
theorem C4_sample_counter (cfg : TrackingConfig) (w : WorkInputs) (s : TrackingState)
    (hlen : 0 < s.current_prn_length_samples) (hnin : 0 ≤ w.ninput)
    (hacq : 0 ≤ s.acq_code_phase_samples) :
    (generalWork cfg w s).state.sample_counter
        = s.sample_counter + (generalWork cfg w s).consumed ∧
    s.sample_counter ≤ (generalWork cfg w s).state.sample_counter := by
  cases hE : s.enable_tracking with
  | false =>
    rw [generalWork_eq_idle cfg w s hE]
    refine ⟨rfl, ?_⟩
    show s.sample_counter ≤ s.sample_counter + s.current_prn_length_samples
    omega
  | true =>
    cases hP : s.pull_in with
    | true =>
      rw [generalWork_eq_pullIn cfg w s hE hP]
      refine ⟨rfl, ?_⟩
      show s.sample_counter ≤ s.sample_counter
        + roundQ (s.acq_code_phase_samples
            + ((s.current_prn_length_samples : ℚ)
               - fmodQ (((s.sample_counter - s.acq_sample_stamp : ℤ)) : ℚ)
                   (s.current_prn_length_samples : ℚ)))
      have hlenQ : (0 : ℚ) < (s.current_prn_length_samples : ℚ) := by exact_mod_cast hlen
      have hf : fmodQ (((s.sample_counter - s.acq_sample_stamp : ℤ)) : ℚ)
          (s.current_prn_length_samples : ℚ) < (s.current_prn_length_samples : ℚ) :=
        fmodQ_lt hlenQ
      have h0 : 0 ≤ roundQ (s.acq_code_phase_samples
            + ((s.current_prn_length_samples : ℚ)
               - fmodQ (((s.sample_counter - s.acq_sample_stamp : ℤ)) : ℚ)
                   (s.current_prn_length_samples : ℚ))) :=
        roundQ_nonneg (by linarith)
      omega
    | false =>
      cases hN : w.prompt_is_nan with
      | true =>
        rw [generalWork_eq_nan cfg w s hE hP hN]
        refine ⟨rfl, ?_⟩
        show s.sample_counter ≤ s.sample_counter + w.ninput
        omega
      | false =>
        rw [generalWork_eq_normal cfg w s hE hP hN]
        refine ⟨rfl, ?_⟩
        show s.sample_counter ≤ s.sample_counter + s.current_prn_length_samples
        omega

/-- C4, witness: a normal tracking invocation at the example state. -/
theorem C4_witness :
    (0 : ℤ) < exState.current_prn_length_samples ∧
    (generalWork exCfg exInputs exState).state.sample_counter
        = exState.sample_counter + (generalWork exCfg exInputs exState).consumed ∧
    exState.sample_counter ≤ (generalWork exCfg exInputs exState).state.sample_counter :=
  ⟨by norm_num [exState],
    (C4_sample_counter exCfg exInputs exState (by norm_num [exState])
      (by norm_num [exInputs]) (by norm_num [exState])).1,
    (C4_sample_counter exCfg exInputs exState (by norm_num [exState])
      (by norm_num [exInputs]) (by norm_num [exState])).2⟩

/-- C5.  At an estimation epoch of the lock detector (`cnt` has reached
`CN0_ESTIMATION_SAMPLES`, the queue is present, and the fail counter sits in
`[0, MAX_FAIL]` as the code maintains): if the carrier-lock indicator is
below the threshold or the C/N0 below the minimum the fail counter
increments by one, otherwise it decrements by one floored at zero; and
exactly when the incremented counter exceeds `MAXIMUM_LOCK_FAIL_COUNTER` the
loss-of-lock message is emitted, tracking is disabled and the counter resets
to zero. -/
theorem C5_lock_detector (qp : Bool) (p : ℚ × ℚ) (cn0e locke old_cn0 old_lock : ℚ)
    (cnt : ℕ) (buf : List (ℚ × ℚ)) (fail : ℤ) (r : Cn0LockResult)
    (hr : r = cn0LockStep qp p cn0e locke cnt buf old_cn0 old_lock fail)
    (hcnt : CN0_ESTIMATION_SAMPLES ≤ cnt) (hq : qp = true)
    (hfail0 : 0 ≤ fail) (hfail1 : fail ≤ MAXIMUM_LOCK_FAIL_COUNTER) :
    ((locke < CARRIER_LOCK_THRESHOLD ∨ cn0e < MINIMUM_VALID_CN0) →
      (MAXIMUM_LOCK_FAIL_COUNTER < fail + 1 →
        r.fail_counter = 0 ∧ r.loss_of_lock = true ∧ r.disable = true) ∧
      (fail + 1 ≤ MAXIMUM_LOCK_FAIL_COUNTER →
        r.fail_counter = fail + 1 ∧ r.loss_of_lock = false ∧ r.disable = false)) ∧
    (¬(locke < CARRIER_LOCK_THRESHOLD ∨ cn0e < MINIMUM_VALID_CN0) →
      r.fail_counter = max (fail - 1) 0 ∧ r.loss_of_lock = false ∧ r.disable = false) := by
  subst hr
  subst hq
  unfold cn0LockStep
  rw [if_neg (Nat.not_lt.mpr hcnt)]
  constructor
  · intro hb
    rw [if_pos hb]
    simp only []
    constructor
    · intro h50
      rw [if_pos h50]
      exact ⟨rfl, rfl, rfl⟩
    · intro h50
      rw [if_neg (not_lt.mpr h50)]
      exact ⟨rfl, rfl, rfl⟩
  · intro hb
    rw [if_neg hb]
    simp only []
    have hM : MAXIMUM_LOCK_FAIL_COUNTER = 50 := rfl
    rw [hM] at hfail1 ⊢
    have hno : ¬ ((50 : ℤ) < if 0 < fail then fail - 1 else fail) := by
      split <;> omega
    rw [if_neg hno]
    refine ⟨?_, rfl, rfl⟩
    show (if 0 < fail then fail - 1 else fail) = max (fail - 1) 0
    split <;> omega

/-- C5, witness: an epoch with the indicator at 0 (below 0.85) and the fail
counter at 50, so the increment trips the threshold: message emitted,
tracking disabled, counter reset. -/
theorem C5_witness :
    (20 : ℕ) ≤ 20 ∧
    (cn0LockStep true (1, 0) 40 0 20 (List.replicate 20 ((0 : ℚ), (0 : ℚ))) 30 1 50).fail_counter = 0 ∧
    (cn0LockStep true (1, 0) 40 0 20 (List.replicate 20 ((0 : ℚ), (0 : ℚ))) 30 1 50).loss_of_lock = true ∧
    (cn0LockStep true (1, 0) 40 0 20 (List.replicate 20 ((0 : ℚ), (0 : ℚ))) 30 1 50).disable = true := by
  have h := C5_lock_detector true (1, 0) 40 0 30 1 20
    (List.replicate 20 ((0 : ℚ), (0 : ℚ))) 50 _ rfl (le_refl 20) rfl (by norm_num)
    (by norm_num [MAXIMUM_LOCK_FAIL_COUNTER])
  have h2 := (h.1 (Or.inl (by norm_num [CARRIER_LOCK_THRESHOLD]))).1
    (by norm_num [MAXIMUM_LOCK_FAIL_COUNTER])
  exact ⟨le_refl 20, h2.1, h2.2.1, h2.2.2⟩

/-- Example inputs with a NaN Prompt correlator output. -/
def exInputsNaN : WorkInputs := { exInputs with prompt_is_nan := true }

/-- Example state with tracking disabled. -/
def exStateIdle : TrackingState := { exState with enable_tracking := false }

/-- C6.  When the Prompt correlator output contains NaN, the invocation
consumes every available input sample, emits exactly one record with
`Flag_valid_tracking = false` and zero Prompt components, leaves tracking
enabled, and leaves the Doppler and code-frequency estimates, the loop
accumulators, the carrier-phase remainder, the lock counters, the Prompt
buffer and the block length untouched. -/
theorem C6_nan_block (cfg : TrackingConfig) (w : WorkInputs) (s : TrackingState)
    (r : WorkResult) (hr : r = generalWork cfg w s)
    (h1 : s.enable_tracking = true) (h2 : s.pull_in = false)
    (h3 : w.prompt_is_nan = true) :
    r.consumed = w.ninput ∧ r.produced = 1 ∧
    r.output.flag_valid_tracking = false ∧ r.output.prompt_I = 0 ∧ r.output.prompt_Q = 0 ∧
    r.state.enable_tracking = true ∧
    r.state.carrier_doppler_hz = s.carrier_doppler_hz ∧
    r.state.code_freq_chips = s.code_freq_chips ∧
    r.state.acc_carrier_phase_rad = s.acc_carrier_phase_rad ∧
    r.state.rem_carr_phase_rad = s.rem_carr_phase_rad ∧
    r.state.acc_code_phase_secs = s.acc_code_phase_secs ∧
    r.state.carrier_lock_fail_counter = s.carrier_lock_fail_counter ∧
    r.state.cn0_estimation_counter = s.cn0_estimation_counter ∧
    r.state.prompt_buffer = s.prompt_buffer ∧
    r.state.cn0_snv_db_hz = s.cn0_snv_db_hz ∧
    r.state.carrier_lock_test = s.carrier_lock_test ∧
    r.state.current_prn_length_samples = s.current_prn_length_samples := by
  subst hr
  rw [generalWork_eq_nan cfg w s h1 h2 h3]
  exact ⟨rfl, rfl, rfl, rfl, rfl, h1, rfl, rfl, rfl, rfl, rfl, rfl, rfl, rfl, rfl, rfl, rfl⟩

/-- C6, witness: the NaN branch at the example state. -/
theorem C6_witness :
    exInputsNaN.prompt_is_nan = true ∧
    (generalWork exCfg exInputsNaN exState).consumed = exInputsNaN.ninput ∧
    (generalWork exCfg exInputsNaN exState).output.flag_valid_tracking = false ∧
    (generalWork exCfg exInputsNaN exState).output.prompt_I = 0 ∧
    (generalWork exCfg exInputsNaN exState).state.enable_tracking = true := by
  have h := C6_nan_block exCfg exInputsNaN exState _ rfl rfl rfl rfl
  exact ⟨rfl, h.1, h.2.2.1, h.2.2.2.1, h.2.2.2.2.2.1⟩

/-- C7.  When tracking is disabled an invocation emits exactly one
zero-valued record, consumes and advances the sample counter by exactly one
block length, and leaves every other loop-state field — Doppler, code
frequency, phase remainders and accumulators, lock and C/N0 state, and the
block length itself — unchanged. -/
theorem C7_idle_frame (cfg : TrackingConfig) (w : WorkInputs) (s : TrackingState)
    (r : WorkResult) (hr : r = generalWork cfg w s)
    (h : s.enable_tracking = false) :
    r.state.sample_counter = s.sample_counter + s.current_prn_length_samples ∧
    r.consumed = s.current_prn_length_samples ∧
    r.produced = 1 ∧
    r.output = zeroSynchro ∧
    r.state.carrier_doppler_hz = s.carrier_doppler_hz ∧
    r.state.code_freq_chips = s.code_freq_chips ∧
    r.state.code_phase_chips = s.code_phase_chips ∧
    r.state.rem_code_phase_samples = s.rem_code_phase_samples ∧
    r.state.rem_carr_phase_rad = s.rem_carr_phase_rad ∧
    r.state.acc_carrier_phase_rad = s.acc_carrier_phase_rad ∧
    r.state.acc_code_phase_secs = s.acc_code_phase_secs ∧
    r.state.carrier_lock_fail_counter = s.carrier_lock_fail_counter ∧
    r.state.cn0_estimation_counter = s.cn0_estimation_counter ∧
    r.state.prompt_buffer = s.prompt_buffer ∧
    r.state.cn0_snv_db_hz = s.cn0_snv_db_hz ∧
    r.state.carrier_lock_test = s.carrier_lock_test ∧
    r.state.current_prn_length_samples = s.current_prn_length_samples ∧
    r.state.enable_tracking = false ∧
    r.state.pull_in = s.pull_in := by
  subst hr
  rw [generalWork_eq_idle cfg w s h]
  exact ⟨rfl, rfl, rfl, rfl, rfl, rfl, rfl, rfl, rfl, rfl, rfl, rfl, rfl, rfl, rfl, rfl,
    rfl, h, rfl⟩

/-- C7, witness: the disabled branch at the example state. -/
theorem C7_witness :
    exStateIdle.enable_tracking = false ∧
    (generalWork exCfg exInputs exStateIdle).state.sample_counter
      = exStateIdle.sample_counter + exStateIdle.current_prn_length_samples ∧
    (generalWork exCfg exInputs exStateIdle).output = zeroSynchro ∧
    (generalWork exCfg exInputs exStateIdle).state.carrier_doppler_hz
      = exStateIdle.carrier_doppler_hz := by
  have h := C7_idle_frame exCfg exInputs exStateIdle _ rfl rfl
  exact ⟨rfl, h.1, h.2.2.2.1, h.2.2.2.2.1⟩

/-- C8.  A new C/N0 and carrier-lock estimate is produced exactly when the
Prompt-history counter has reached `CN0_ESTIMATION_SAMPLES` = 20 (the buffer
then holds the 20 values written since the last reset); at that epoch the
counter resets to 0 and the buffer is left as it stands; in every other
tracking block exactly one Prompt value is written into the buffer (whose
length never changes) and the counter increments by one. -/
theorem C8_cn0_buffer (qp : Bool) (p : ℚ × ℚ) (cn0e locke old_cn0 old_lock : ℚ)
    (cnt : ℕ) (buf : List (ℚ × ℚ)) (fail : ℤ) (r : Cn0LockResult)
    (hr : r = cn0LockStep qp p cn0e locke cnt buf old_cn0 old_lock fail)
    (hcnt : cnt ≤ CN0_ESTIMATION_SAMPLES) :
    (r.estimated = true ↔ cnt = CN0_ESTIMATION_SAMPLES) ∧
    (cnt < CN0_ESTIMATION_SAMPLES →
      r.counter = cnt + 1 ∧ r.buffer = buf.set cnt p ∧ r.buffer.length = buf.length ∧
      r.estimated = false ∧ r.cn0 = old_cn0 ∧ r.lock_test = old_lock ∧
      r.fail_counter = fail) ∧
    (cnt = CN0_ESTIMATION_SAMPLES →
      r.counter = 0 ∧ r.buffer = buf ∧ r.cn0 = cn0e ∧ r.lock_test = locke ∧
      r.estimated = true) := by
  subst hr
  by_cases hlt : cnt < CN0_ESTIMATION_SAMPLES
  · unfold cn0LockStep
    rw [if_pos hlt]
    have hne : cnt ≠ CN0_ESTIMATION_SAMPLES := by omega
    refine ⟨by simp [hne], fun _ => ⟨rfl, rfl, by simp, rfl, rfl, rfl, rfl⟩,
      fun hEq => absurd hEq hne⟩
  · unfold cn0LockStep
    rw [if_neg hlt]
    have hEq : cnt = CN0_ESTIMATION_SAMPLES := by omega
    simp only []
    by_cases hb : locke < CARRIER_LOCK_THRESHOLD ∨ cn0e < MINIMUM_VALID_CN0
    · rw [if_pos hb]
      by_cases h50 : MAXIMUM_LOCK_FAIL_COUNTER < fail + 1
      · rw [if_pos h50]
        exact ⟨⟨fun _ => hEq, fun _ => rfl⟩, fun h2 => absurd h2 hlt,
          fun _ => ⟨rfl, rfl, rfl, rfl, rfl⟩⟩
      · rw [if_neg h50]
        exact ⟨⟨fun _ => hEq, fun _ => rfl⟩, fun h2 => absurd h2 hlt,
          fun _ => ⟨rfl, rfl, rfl, rfl, rfl⟩⟩
    · rw [if_neg hb]
      by_cases h50 : MAXIMUM_LOCK_FAIL_COUNTER < (if 0 < fail then fail - 1 else fail)
      · rw [if_pos h50]
        exact ⟨⟨fun _ => hEq, fun _ => rfl⟩, fun h2 => absurd h2 hlt,
          fun _ => ⟨rfl, rfl, rfl, rfl, rfl⟩⟩
      · rw [if_neg h50]
        exact ⟨⟨fun _ => hEq, fun _ => rfl⟩, fun h2 => absurd h2 hlt,
          fun _ => ⟨rfl, rfl, rfl, rfl, rfl⟩⟩

/-- C8, witness: the estimation epoch at a full counter. -/
theorem C8_witness :
    (20 : ℕ) ≤ CN0_ESTIMATION_SAMPLES ∧
    (cn0LockStep true (1, 0) 40 1 20 (List.replicate 20 ((0 : ℚ), (0 : ℚ))) 30 1 0).estimated
      = true ∧
    (cn0LockStep true (1, 0) 40 1 20 (List.replicate 20 ((0 : ℚ), (0 : ℚ))) 30 1 0).counter
      = 0 := by
  have h := C8_cn0_buffer true (1, 0) 40 1 30 1 20
    (List.replicate 20 ((0 : ℚ), (0 : ℚ))) 0 _ rfl (le_refl _)
  exact ⟨le_refl _, (h.2.2 rfl).2.2.2.2, (h.2.2 rfl).1⟩

/-- C9, counterexample.  The claim asserts the constructor rejects a
non-positive PLL bandwidth (among other invalid configurations).  The example
configuration with `pll_bw_hz = -1` is invalid by the spec's criterion, yet
construction succeeds and returns the usual initial state: the constructor
body (source lines 95-186) contains no validation and no failure path. -/
theorem C9_counterexample :
    invalidConfig exBadCfg ∧ mkTrackingCC exBadCfg = some (initialState exBadCfg) := by
  constructor
  · unfold invalidConfig
    left
    norm_num [exBadCfg, exCfg]
  · rfl

/-- C9, amended.  Construction never rejects a configuration: for every
argument tuple — non-positive bandwidths, non-positive sampling rate or
out-of-range spacing included — the constructor produces a tracking object in
the documented initial state (tracking disabled, nominal code rate, block
length `vector_length`, cleared counters). -/
theorem C9_constructor_total (cfg : TrackingConfig) :
    mkTrackingCC cfg = some (initialState cfg) ∧
    (initialState cfg).enable_tracking = false ∧
    (initialState cfg).pull_in = false ∧
    (initialState cfg).code_freq_chips = CODE_RATE_HZ ∧
    (initialState cfg).current_prn_length_samples = (cfg.vector_length : ℤ) ∧
    (initialState cfg).carrier_lock_fail_counter = 0 ∧
    (initialState cfg).sample_counter = 0 :=
  ⟨rfl, rfl, rfl, rfl, rfl, rfl, rfl⟩

/-- Projection: the normal tracking tail leaves the accumulated code phase
as the phase bookkeeping set it. -/
theorem normalStep_code_phase (cfg : TrackingConfig) (w : WorkInputs) (s : TrackingState) :
    (normalStep cfg w s).state.code_phase_chips = s.code_phase_chips := rfl

/-- C10.  After every completed tracking block, `rem_code_phase_samples`
equals the code length minus the reduced accumulated code phase, folded into
`(-L/2, L/2]` chips by subtracting one code length when above half, scaled by
`fs_in / code_rate_nominal`; the reduced phase lies in `[0, L)` and the
remainder is therefore bounded by half a code period in samples (not by one
sample). -/
theorem C10_rem_code_phase (cfg : TrackingConfig) (w : WorkInputs) (s : TrackingState)
    (r : WorkResult) (hr : r = generalWork cfg w s)
    (h1 : s.enable_tracking = true) (h2 : s.pull_in = false)
    (h3 : w.prompt_is_nan = false)
    (hphase : 0 ≤ s.code_phase_chips) (hfreq : 0 ≤ s.code_freq_chips)
    (hlen : 0 ≤ s.current_prn_length_samples) (hfs : 0 ≤ cfg.fs_in) :
    r.state.rem_code_phase_samples =
      (if CODE_LENGTH_CHIPS / 2 < CODE_LENGTH_CHIPS - r.state.code_phase_chips
       then CODE_LENGTH_CHIPS - r.state.code_phase_chips - CODE_LENGTH_CHIPS
       else CODE_LENGTH_CHIPS - r.state.code_phase_chips) * cfg.fs_in / CODE_RATE_HZ ∧
    0 ≤ r.state.code_phase_chips ∧
    r.state.code_phase_chips < CODE_LENGTH_CHIPS ∧
    |r.state.rem_code_phase_samples| ≤ CODE_LENGTH_CHIPS / 2 * cfg.fs_in / CODE_RATE_HZ := by
  subst hr
  rw [generalWork_eq_normal cfg w s h1 h2 h3, normalStep_rem_code, normalStep_code_phase,
    phaseBookkeeping_rem_code, phaseBookkeeping_code_phase]
  have hx0 : 0 ≤ s.code_phase_chips
      + (s.current_prn_length_samples : ℚ) / cfg.fs_in * s.code_freq_chips := by
    have hT : (0 : ℚ) ≤ (s.current_prn_length_samples : ℚ) / cfg.fs_in :=
      div_nonneg (by exact_mod_cast hlen) hfs
    exact add_nonneg hphase (mul_nonneg hT hfreq)
  have hL : (0 : ℚ) < CODE_LENGTH_CHIPS := by norm_num [CODE_LENGTH_CHIPS]
  have hcp0 : 0 ≤ fmodQ (s.code_phase_chips
      + (s.current_prn_length_samples : ℚ) / cfg.fs_in * s.code_freq_chips)
      CODE_LENGTH_CHIPS := fmodQ_nonneg hL hx0
  have hcp1 : fmodQ (s.code_phase_chips
      + (s.current_prn_length_samples : ℚ) / cfg.fs_in * s.code_freq_chips)
      CODE_LENGTH_CHIPS < CODE_LENGTH_CHIPS := fmodQ_lt_of_nonneg hL hx0
  set cp := fmodQ (s.code_phase_chips
      + (s.current_prn_length_samples : ℚ) / cfg.fs_in * s.code_freq_chips)
      CODE_LENGTH_CHIPS with hcp
  refine ⟨rfl, hcp0, hcp1, ?_⟩
  have habs : |if CODE_LENGTH_CHIPS / 2 < CODE_LENGTH_CHIPS - cp
        then CODE_LENGTH_CHIPS - cp - CODE_LENGTH_CHIPS
        else CODE_LENGTH_CHIPS - cp| ≤ CODE_LENGTH_CHIPS / 2 := by
    split
    · rename_i h
      rw [abs_le]
      constructor <;> linarith
    · rename_i h
      have h' := not_lt.mp h
      rw [abs_le]
      constructor <;> linarith
  have hRATE : (0 : ℚ) < CODE_RATE_HZ := by norm_num [CODE_RATE_HZ]
  rw [abs_div, abs_mul, abs_of_nonneg hfs, abs_of_pos hRATE]
  rw [div_le_div_iff_of_pos_right hRATE]
  exact mul_le_mul_of_nonneg_right habs hfs

/-- C10, witness: the half-code-period bound at the example state. -/
theorem C10_witness :
    0 ≤ exState.code_phase_chips ∧
    |(generalWork exCfg exInputs exState).state.rem_code_phase_samples|
      ≤ CODE_LENGTH_CHIPS / 2 * exCfg.fs_in / CODE_RATE_HZ :=
  ⟨by norm_num [exState],
    (C10_rem_code_phase exCfg exInputs exState _ rfl rfl rfl rfl
      (by norm_num [exState]) (by norm_num [exState]) (by norm_num [exState])
      (by norm_num [exCfg])).2.2.2⟩
